import Mathlib

/-!
Shallow embedding of the scale-printer-mqtt bridge daemons.

The two daemons (scale_daemon, printer_daemon) each run a serial-link
worker and a broker-link worker coupled by FIFO queues.  Queues are
modelled as Lean lists (head = front, enqueue = append at the tail),
byte strings as `List Nat` (each element a byte value), decoded text as
`List Char`.  The run loops are modelled as iteration step functions on
explicit state, parameterised by an environment record carrying the
outcome of each external call of that iteration (connect success, write
failure, byte available on the wire, publish result code).  Each
iteration also returns the list of externally visible actions it
performed, in order.
-/

namespace ScalePrinterMqtt

/-- Python `bytes.decode("ascii", errors="replace")`: a byte below 128
decodes to the corresponding character, any other byte to U+FFFD. -/
def decodeAsciiReplace (bs : List Nat) : List Char :=
  bs.map (fun b => if b < 128 then Char.ofNat b else Char.ofNat 0xFFFD)

/-- Python `str.encode("ascii", errors="replace")`: a character with code
point below 128 encodes to its code point, any other character to the
byte 63 (the question mark). -/
def encodeAsciiReplace (cs : List Char) : List Nat :=
  cs.map (fun c => if c.toNat < 128 then c.toNat else 63)

/-- Characters stripped by Python `str.strip()` among those reachable on
the serial decode path (ASCII or U+FFFD, which is not whitespace): the
space, the control characters 9 to 13 (tab, line feed, vertical tab,
form feed, carriage return), and the separators 28 to 31 (file, group,
record and unit separator, for which `str.isspace()` is also true). -/
def isPyStripChar (c : Char) : Bool :=
  c.toNat = 32 || (9 ≤ c.toNat && c.toNat ≤ 13) || (28 ≤ c.toNat && c.toNat ≤ 31)

/-- Python `str.strip()` on a character list: drop stripped characters
from both ends. -/
def pyStrip (cs : List Char) : List Char :=
  ((cs.dropWhile isPyStripChar).reverse.dropWhile isPyStripChar).reverse

namespace ScaleSerialHandler

/-- One byte of the line-assembly logic of `ScaleSerialHandler.run`
(scale_daemon/serial_handler.py lines 107-118): a line-feed byte with a
non-empty buffer decodes the buffer (ASCII with replacement), strips
whitespace, enqueues the result on the serial-to-mqtt queue when
non-empty, and clears the buffer; any other byte is appended to the
buffer. -/
def processByte (buffer : List Nat) (outQ : List (List Char)) (b : Nat) :
    List Nat × List (List Char) :=
  if b = 10 then
    if buffer = [] then (buffer, outQ)
    else
      let line := pyStrip (decodeAsciiReplace buffer)
      ([], if line = [] then outQ else outQ ++ [line])
  else (buffer ++ [b], outQ)

end ScaleSerialHandler

/-- Events seen by the scale serial read path across its lifetime: a
byte successfully read, a transport failure (SerialException/OSError,
handled at serial_handler.py lines 125-132 by disconnecting and
sleeping), or a successful reconnect at the top of an iteration. -/
inductive ScaleReadEvent where
  | byte (b : Nat)
  | fail
  | reconnect
deriving DecidableEq

/-- State threaded through the scale serial read path: the connection
flag, the line-assembly buffer (a local of `run`, never reset by the
exception handlers), and the outbound queue. -/
structure ScaleReadState where
  connected : Bool
  buffer : List Nat
  outQ : List (List Char)
deriving DecidableEq

namespace ScaleSerialHandler

/-- Effect of one read-path event on the scale serial read state,
following `ScaleSerialHandler.run`: failures and reconnects touch only
the connection flag (the buffer is a local variable of `run` that the
exception handlers never clear); a byte goes through `processByte`. -/
def readStep (st : ScaleReadState) (e : ScaleReadEvent) : ScaleReadState :=
  match e with
  | ScaleReadEvent.fail => { st with connected := false }
  | ScaleReadEvent.reconnect => { st with connected := true }
  | ScaleReadEvent.byte b =>
      let p := processByte st.buffer st.outQ b
      { st with buffer := p.1, outQ := p.2 }

/-- Fold of `readStep` over a sequence of read-path events. -/
def readRun (st : ScaleReadState) (es : List ScaleReadEvent) : ScaleReadState :=
  es.foldl readStep st

end ScaleSerialHandler

/-- Externally visible actions of a serial-link run-loop iteration. -/
inductive SAction where
  | write (bs : List Nat)
  | disconnect
  | sleepReconnect
  | sleepSmall
deriving DecidableEq

/-- State of the scale serial worker: connection flag, the
mqtt-to-serial command queue (byte strings), the line buffer, and the
serial-to-mqtt outbound queue (decoded lines). -/
structure ScaleSerialState where
  connected : Bool
  mqttToSerial : List (List Nat)
  buffer : List Nat
  serialToMqtt : List (List Char)
deriving DecidableEq

/-- Environment of one scale serial iteration: the outcome of each
external call the iteration may perform. `readEv = some b` means
`in_waiting > 0` and the one-byte read returns `b`. -/
structure ScaleEnv where
  connectOk : Bool
  writeFails : Bool
  readEv : Option Nat
  readFails : Bool
deriving DecidableEq

namespace ScaleSerialHandler

/-- Read section of the scale serial try block (serial_handler.py lines
105-123): when connected and a byte is available, read it; a raised
SerialException/OSError hits the handlers at lines 125-132 (disconnect,
sleep the reconnect delay); otherwise the byte goes through
`processByte`. Every path then reaches the `time.sleep(0.01)` at line
138. -/
def readSection (env : ScaleEnv) (st : ScaleSerialState) (acc : List SAction) :
    List SAction × ScaleSerialState :=
  match env.readEv with
  | some b =>
      if st.connected then
        if env.readFails then
          (acc ++ [SAction.disconnect, SAction.sleepReconnect, SAction.sleepSmall],
           { st with connected := false })
        else
          let p := processByte st.buffer st.serialToMqtt b
          (acc ++ [SAction.sleepSmall], { st with buffer := p.1, serialToMqtt := p.2 })
      else (acc ++ [SAction.sleepSmall], st)
  | none => (acc ++ [SAction.sleepSmall], st)

/-- Command-write section of the scale serial try block
(serial_handler.py lines 96-103) followed by the read section: if the
command queue is non-empty, `queue.get()` removes the head; when
connected the command bytes are written as-is (no terminator is
appended). A write failure raises into the handlers at lines 125-132
(disconnect, sleep), skipping the read section; the dequeued command is
not re-enqueued on any path. -/
def tryBody (env : ScaleEnv) (st : ScaleSerialState) (acc : List SAction) :
    List SAction × ScaleSerialState :=
  match st.mqttToSerial with
  | command :: rest =>
      let st1 := { st with mqttToSerial := rest }
      if st.connected then
        if env.writeFails then
          (acc ++ [SAction.disconnect, SAction.sleepReconnect, SAction.sleepSmall],
           { st1 with connected := false })
        else
          readSection env st1 (acc ++ [SAction.write command])
      else readSection env st1 acc
  | [] => readSection env st acc

/-- One full iteration of the `while self.running` loop of
`ScaleSerialHandler.run` (non-mock mode, serial_handler.py lines
88-138): if disconnected, call `_disconnect_serial` then try to connect;
on connect failure sleep the reconnect delay and continue; otherwise run
the try block. -/
def runIteration (env : ScaleEnv) (st : ScaleSerialState) :
    List SAction × ScaleSerialState :=
  if st.connected then tryBody env st []
  else if env.connectOk then
    tryBody env { st with connected := true } [SAction.disconnect]
  else ([SAction.disconnect, SAction.sleepReconnect], st)

/-- The run loop of `ScaleSerialHandler.run` from iteration boundary `i`
with the given fuel: at each boundary the loop re-checks `running i` (the
value of `self.running`, which `stop()` may have cleared); when it is
false the loop exits and the worker performs the final
`_disconnect_serial()` of line 140. -/
def runFrom (running : Nat → Bool) (envs : Nat → ScaleEnv) :
    Nat → Nat → ScaleSerialState → List SAction
  | 0, _, _ => []
  | fuel + 1, i, st =>
      if running i then
        let p := runIteration (envs i) st
        p.1 ++ runFrom running envs fuel (i + 1) p.2
      else [SAction.disconnect]

end ScaleSerialHandler

/-- State of the printer serial worker: connection flag and the
mqtt-to-serial print queue (decoded text messages). -/
structure PrinterSerialState where
  connected : Bool
  mqttToSerial : List (List Char)
deriving DecidableEq

/-- Environment of one printer serial iteration. -/
structure PrinterEnv where
  connectOk : Bool
  writeFails : Bool
deriving DecidableEq

namespace PrinterSerialHandler

/-- Try block of `PrinterSerialHandler.run`
(printer_daemon/serial_handler.py lines 76-106): dequeue one message if
available; when connected, encode it as ASCII with replacement, append a
line feed, and write; on a write timeout / SerialException / OSError the
original message is re-enqueued at the tail and the port is force
disconnected (lines 87-98); with the port not open the message is also
re-enqueued and a disconnect forced (lines 99-103); with an empty queue
the loop sleeps briefly. -/
def tryBody (env : PrinterEnv) (st : PrinterSerialState) (acc : List SAction) :
    List SAction × PrinterSerialState :=
  match st.mqttToSerial with
  | message :: rest =>
      if st.connected then
        if env.writeFails then
          (acc ++ [SAction.disconnect],
           { connected := false, mqttToSerial := rest ++ [message] })
        else
          (acc ++ [SAction.write (encodeAsciiReplace message ++ [10])],
           { st with mqttToSerial := rest })
      else
        (acc ++ [SAction.disconnect],
         { connected := false, mqttToSerial := rest ++ [message] })
  | [] => (acc ++ [SAction.sleepSmall], st)

/-- One iteration of the `while self.running` loop of
`PrinterSerialHandler.run` (lines 69-118). -/
def runIteration (env : PrinterEnv) (st : PrinterSerialState) :
    List SAction × PrinterSerialState :=
  if st.connected then tryBody env st []
  else if env.connectOk then
    tryBody env { st with connected := true } [SAction.disconnect]
  else ([SAction.disconnect, SAction.sleepReconnect], st)

end PrinterSerialHandler

/-- Externally visible actions of a broker-link run-loop iteration. -/
inductive MAction where
  | connectCall
  | loopStart
  | loopStop
  | subscribeCall
  | publishCall (message : List Char)
  | disconnectCall
  | sleepReconnect
  | sleepSmall
deriving DecidableEq

/-- Environment of one broker-link iteration: whether the `connect`
call raises, the result code recorded by the on-connect callback (0 is
success; a timeout leaves the reset value), and whether a publish
returns `MQTT_ERR_SUCCESS`. -/
structure MqttEnv where
  connectRaises : Bool
  connRc : Int
  pubOk : Bool
deriving DecidableEq

/-- State of the scale broker worker: connection flag and the
serial-to-mqtt outbound queue of decoded readings. -/
structure ScaleMqttState where
  connected : Bool
  serialToMqtt : List (List Char)
deriving DecidableEq

namespace ScaleMqttHandler

/-- The on-message-arrived callback `ScaleMqttHandler._on_message`
(scale_daemon/mqtt_handler.py lines 48-62): on the command topic with a
non-empty payload, the first byte (`msg.payload[0:1]`) is enqueued on
the mqtt-to-serial queue; empty payloads and other topics are logged and
dropped. Returns the updated queue. -/
def onMessage (commandTopic topic : String) (payload : List Nat)
    (mqttToSerial : List (List Nat)) : List (List Nat) :=
  if topic = commandTopic then
    if payload.length > 0 then mqttToSerial ++ [payload.take 1]
    else mqttToSerial
  else mqttToSerial

/-- Publish section of `ScaleMqttHandler.run` (mqtt_handler.py lines
134-155): when connected and the outbound queue is non-empty, dequeue
one message and publish it; a non-success result code re-enqueues the
message at the tail (line 146) without touching the connection. Every
path reaches the `time.sleep(0.01)` at line 155. -/
def publishSection (env : MqttEnv) (st : ScaleMqttState) (acc : List MAction) :
    List MAction × ScaleMqttState :=
  if st.connected then
    match st.serialToMqtt with
    | message :: rest =>
        if env.pubOk then
          (acc ++ [MAction.publishCall message, MAction.sleepSmall],
           { st with serialToMqtt := rest })
        else
          (acc ++ [MAction.publishCall message, MAction.sleepSmall],
           { st with serialToMqtt := rest ++ [message] })
    | [] => (acc ++ [MAction.sleepSmall], st)
  else (acc ++ [MAction.sleepSmall], st)

/-- One iteration of the `while self.running` loop of
`ScaleMqttHandler.run` (lines 103-155): when disconnected, attempt
`connect` and start the network loop; the on-connect callback records
the result code and on success subscribes to the command topic (lines
31-39); a non-success code stops the loop, sleeps the reconnect delay
and continues, as does a raised exception. On success the same
iteration falls through to the publish section. -/
def runIteration (env : MqttEnv) (st : ScaleMqttState) :
    List MAction × ScaleMqttState :=
  if st.connected then publishSection env st []
  else if env.connectRaises then ([MAction.connectCall, MAction.sleepReconnect], st)
  else if env.connRc = 0 then
    publishSection env { st with connected := true }
      [MAction.connectCall, MAction.loopStart, MAction.subscribeCall]
  else
    ([MAction.connectCall, MAction.loopStart, MAction.loopStop,
      MAction.sleepReconnect], st)

/-- Iterated run loop of the scale broker worker over a finite schedule
of per-iteration environments. -/
def runAux : List MqttEnv → ScaleMqttState → List MAction × ScaleMqttState
  | [], st => ([], st)
  | e :: es, st =>
      let p := runIteration e st
      let q := runAux es p.2
      (p.1 ++ q.1, q.2)

/-- `ScaleMqttHandler.run` (lines 94-165): if `_setup_client` fails the
worker logs, clears `self.running` and returns before the loop (lines
98-101) — no broker action is ever performed; otherwise it runs the
loop and on exit stops the network loop, disconnecting when connected. -/
def run (setupOk : Bool) (envs : List MqttEnv) (st : ScaleMqttState) :
    List MAction :=
  if setupOk then
    let p := runAux envs st
    p.1 ++ (if p.2.connected then [MAction.loopStop, MAction.disconnectCall]
            else [MAction.loopStop])
  else []

end ScaleMqttHandler

/-- State of the printer broker worker: the connection flag only (the
worker is reactive; received messages are handled by the callback). -/
structure PrinterMqttState where
  connected : Bool
deriving DecidableEq

namespace PrinterMqttHandler

/-- The on-message-arrived callback `PrinterMqttHandler._on_message`
(printer_daemon/mqtt_handler.py lines 42-60): on the print topic with a
non-empty payload, the payload is decoded as ASCII with replacement
characters and the decoded text enqueued on the mqtt-to-serial queue;
empty payloads and other topics are logged and dropped. -/
def onMessage (printTopic topic : String) (payload : List Nat)
    (mqttToSerial : List (List Char)) : List (List Char) :=
  if topic = printTopic then
    if payload.length > 0 then mqttToSerial ++ [decodeAsciiReplace payload]
    else mqttToSerial
  else mqttToSerial

/-- One iteration of the `while self.running` loop of
`PrinterMqttHandler.run` (lines 92-125): the connect logic mirrors the
scale broker worker; when connected the thread merely sleeps. -/
def runIteration (env : MqttEnv) (st : PrinterMqttState) :
    List MAction × PrinterMqttState :=
  if st.connected then ([MAction.sleepSmall], st)
  else if env.connectRaises then ([MAction.connectCall, MAction.sleepReconnect], st)
  else if env.connRc = 0 then
    ([MAction.connectCall, MAction.loopStart, MAction.subscribeCall,
      MAction.sleepSmall], { st with connected := true })
  else
    ([MAction.connectCall, MAction.loopStart, MAction.loopStop,
      MAction.sleepReconnect], st)

/-- Iterated run loop of the printer broker worker. -/
def runAux : List MqttEnv → PrinterMqttState → List MAction × PrinterMqttState
  | [], st => ([], st)
  | e :: es, st =>
      let p := runIteration e st
      let q := runAux es p.2
      (p.1 ++ q.1, q.2)

/-- `PrinterMqttHandler.run` (lines 83-134): a `_setup_client` failure
makes the worker return before the loop (lines 87-90); otherwise the
loop runs and on exit the network loop is stopped, with a disconnect
when connected. -/
def run (setupOk : Bool) (envs : List MqttEnv) (st : PrinterMqttState) :
    List MAction :=
  if setupOk then
    let p := runAux envs st
    p.1 ++ (if p.2.connected then [MAction.loopStop, MAction.disconnectCall]
            else [MAction.loopStop])
  else []

end PrinterMqttHandler

/-! Helper lemmas shared by the claim theorems. -/

/-- A character built from a byte below 128 decodes back to that byte. -/
theorem char_toNat_ofNat_of_lt (b : Nat) (h : b < 128) : (Char.ofNat b).toNat = b := by
  have hv : b.isValidChar := Or.inl (by omega)
  simp [Char.ofNat, hv]
  simp [Char.ofNatAux, Char.toNat, UInt32.toNat, Nat.isValidChar]

/-- ASCII re-encoding after replacement decoding keeps bytes below 128
and maps every other byte to the question mark. -/
theorem encode_decode_eq_map (payload : List Nat) :
    encodeAsciiReplace (decodeAsciiReplace payload)
      = payload.map (fun b => if b < 128 then b else 63) := by
  induction payload with
  | nil => rfl
  | cons b bs ih =>
      simp only [decodeAsciiReplace, encodeAsciiReplace, List.map_cons] at ih ⊢
      refine congrArg₂ List.cons ?_ ih
      by_cases hb : b < 128
      · simp [hb, char_toNat_ofNat_of_lt b hb]
      · simp [hb, show (Char.ofNat 65533).toNat = 65533 from by decide]

/-- Folding the read step over events splits along list append. -/
theorem readRun_append (st : ScaleReadState) (es fs : List ScaleReadEvent) :
    ScaleSerialHandler.readRun st (es ++ fs)
      = ScaleSerialHandler.readRun (ScaleSerialHandler.readRun st es) fs :=
  List.foldl_append ScaleSerialHandler.readStep st es fs

/-- Bytes other than the line feed only accumulate in the buffer. -/
theorem readRun_bytes_accumulate (bs : List Nat) (st : ScaleReadState)
    (h : ∀ b ∈ bs, b ≠ 10) :
    ScaleSerialHandler.readRun st (bs.map ScaleReadEvent.byte)
      = { st with buffer := st.buffer ++ bs } := by
  induction bs generalizing st with
  | nil => simp [ScaleSerialHandler.readRun]
  | cons b bs ih =>
      have hb : b ≠ 10 := h b (List.mem_cons_self b bs)
      have hrest : ∀ x ∈ bs, x ≠ 10 := fun x hx => h x (List.mem_cons_of_mem b hx)
      have hstep : ScaleSerialHandler.readStep st (ScaleReadEvent.byte b)
          = { st with buffer := st.buffer ++ [b] } := by
        simp [ScaleSerialHandler.readStep, ScaleSerialHandler.processByte, hb]
      calc ScaleSerialHandler.readRun st ((b :: bs).map ScaleReadEvent.byte)
          = ScaleSerialHandler.readRun
              (ScaleSerialHandler.readStep st (ScaleReadEvent.byte b))
              (bs.map ScaleReadEvent.byte) := by
            simp [ScaleSerialHandler.readRun]
        _ = { st with buffer := st.buffer ++ b :: bs } := by
            rw [hstep, ih _ hrest]
            simp

/-- Actions already accumulated survive the read section. -/
theorem readSection_mem_of_mem (env : ScaleEnv) (st : ScaleSerialState)
    (acc : List SAction) (a : SAction) (ha : a ∈ acc) :
    a ∈ (ScaleSerialHandler.readSection env st acc).1 := by
  unfold ScaleSerialHandler.readSection
  cases h : env.readEv with
  | none => simp [ha]
  | some b =>
      by_cases hc : st.connected <;> by_cases hr : env.readFails <;>
        simp [hc, hr, ha]

/-- The read section adds at most one reconnect-delay sleep to an
accumulator that holds none. -/
theorem readSection_count_sleepReconnect (env : ScaleEnv) (st : ScaleSerialState)
    (acc : List SAction) (h : acc.count SAction.sleepReconnect = 0) :
    (ScaleSerialHandler.readSection env st acc).1.count SAction.sleepReconnect
      ≤ 1 := by
  unfold ScaleSerialHandler.readSection
  cases henv : env.readEv with
  | none => simp [List.count_append, h]
  | some b =>
      by_cases hc : st.connected <;> by_cases hr : env.readFails <;>
        simp [hc, hr, List.count_append, List.count_cons, h]

/-- The try block of the scale serial iteration performs at most one
reconnect-delay sleep. -/
theorem tryBody_count_sleepReconnect (env : ScaleEnv) (st : ScaleSerialState)
    (acc : List SAction) (h : acc.count SAction.sleepReconnect = 0) :
    (ScaleSerialHandler.tryBody env st acc).1.count SAction.sleepReconnect
      ≤ 1 := by
  unfold ScaleSerialHandler.tryBody
  cases hq : st.mqttToSerial with
  | nil => exact readSection_count_sleepReconnect env st acc h
  | cons cmd rest =>
      by_cases hc : st.connected
      · by_cases hw : env.writeFails
        · simp [hc, hw, List.count_append, List.count_cons, h]
        · simp only [hc, hw, Bool.false_eq_true, if_false, if_true]
          refine readSection_count_sleepReconnect env _ _ ?_
          simp [List.count_append, List.count_cons, h]
      · simp only [hc, Bool.false_eq_true, if_false]
        exact readSection_count_sleepReconnect env _ _ h

/-- One scale serial iteration performs at most one reconnect-delay
sleep. -/
theorem runIteration_count_sleepReconnect (env : ScaleEnv)
    (st : ScaleSerialState) :
    ((ScaleSerialHandler.runIteration env st).1.count SAction.sleepReconnect)
      ≤ 1 := by
  unfold ScaleSerialHandler.runIteration
  by_cases hc : st.connected
  · simp only [hc, if_true]
    exact tryBody_count_sleepReconnect env st [] rfl
  · by_cases hk : env.connectOk
    · simp only [hc, hk, Bool.false_eq_true, if_false, if_true]
      exact tryBody_count_sleepReconnect env _ [SAction.disconnect] (by decide)
    · simp only [hc, hk, Bool.false_eq_true, if_false]
      decide

/-- Single-step unfolding of the scale serial run loop. -/
theorem runFrom_succ (running : Nat → Bool) (envs : Nat → ScaleEnv)
    (fuel i : Nat) (st : ScaleSerialState) :
    ScaleSerialHandler.runFrom running envs (fuel + 1) i st
      = if running i then
          (ScaleSerialHandler.runIteration (envs i) st).1
            ++ ScaleSerialHandler.runFrom running envs fuel (i + 1)
                (ScaleSerialHandler.runIteration (envs i) st).2
        else [SAction.disconnect] := rfl

/-- Once the loop guard of the scale serial run loop reads false, extra
fuel changes nothing and the trace ends with the final disconnect. -/
theorem runFrom_stop_aux (running : Nat → Bool) (envs : Nat → ScaleEnv) :
    ∀ n i (st : ScaleSerialState) k,
      (∀ j, j < n → running (i + j) = true) → running (i + n) = false →
      ScaleSerialHandler.runFrom running envs (n + 1 + k) i st
          = ScaleSerialHandler.runFrom running envs (n + 1) i st
        ∧ (ScaleSerialHandler.runFrom running envs (n + 1) i st).getLast?
          = some SAction.disconnect := by
  intro n
  induction n with
  | zero =>
      intro i st k _ hstop
      simp only [Nat.add_zero] at hstop
      have e1 : 0 + 1 + k = k + 1 := by omega
      constructor
      · rw [e1]
        simp [ScaleSerialHandler.runFrom, hstop]
      · simp [ScaleSerialHandler.runFrom, hstop]
  | succ m ih =>
      intro i st k hrun hstop
      have h0 : running i = true := by simpa using hrun 0 (Nat.succ_pos m)
      have hrun' : ∀ j, j < m → running (i + 1 + j) = true := by
        intro j hj
        have := hrun (j + 1) (by omega)
        have e : i + (j + 1) = i + 1 + j := by omega
        rwa [e] at this
      have hstop' : running (i + 1 + m) = false := by
        have e : i + (m + 1) = i + 1 + m := by omega
        rwa [e] at hstop
      obtain ⟨ihEq, ihLast⟩ :=
        ih (i + 1) ((ScaleSerialHandler.runIteration (envs i) st).2) k hrun' hstop'
      have hne : ScaleSerialHandler.runFrom running envs (m + 1) (i + 1)
          ((ScaleSerialHandler.runIteration (envs i) st).2) ≠ [] := by
        intro hnil
        rw [hnil] at ihLast
        simp at ihLast
      have e1 : m + 1 + 1 + k = (m + 1 + k) + 1 := by omega
      constructor
      · rw [e1, runFrom_succ, runFrom_succ, if_pos h0, if_pos h0, ihEq]
      · rw [runFrom_succ, if_pos h0,
          List.getLast?_append_of_ne_nil _ hne]
        exact ihLast

/-! Claim theorems. -/

/-- Claim C2: delivering the bytes 49, 50, 51, 46, 53, 10 one at a time makes
the scale serial link enqueue exactly one outbound payload, the text
"123.5", with the buffer cleared; a non-terminator byte accumulates in
the buffer, and a line feed on a non-empty buffer decodes, strips,
enqueues only a non-empty result, and clears the buffer. -/
theorem c2_line_assembly :
    (ScaleSerialHandler.readRun ⟨true, [], []⟩
        ([49, 50, 51, 46, 53, 10].map ScaleReadEvent.byte))
      = ⟨true, [], ["123.5".toList]⟩
    ∧ (∀ buffer outQ b, b ≠ 10 →
        ScaleSerialHandler.processByte buffer outQ b = (buffer ++ [b], outQ))
    ∧ (∀ buffer outQ, buffer ≠ [] →
        ScaleSerialHandler.processByte buffer outQ 10
          = ([], if pyStrip (decodeAsciiReplace buffer) = [] then outQ
                 else outQ ++ [pyStrip (decodeAsciiReplace buffer)])) := by
  refine ⟨by decide, ?_, ?_⟩
  · intro buffer outQ b hb
    simp [ScaleSerialHandler.processByte, hb]
  · intro buffer outQ hb
    simp [ScaleSerialHandler.processByte, hb]

/-- Witness for C2 at concrete inputs. -/
theorem c2_line_assembly_witness :
    ScaleSerialHandler.processByte [49] [] 50 = ([49, 50], [])
    ∧ ScaleSerialHandler.processByte [49] [] 10 = ([], [['1']]) := by
  constructor
  · exact c2_line_assembly.2.1 [49] [] 50 (by decide)
  · rw [c2_line_assembly.2.2 [49] [] (by decide)]
    decide

/-- Claim C4: a message with an empty payload, or on a topic other than the
expected inbound topic, leaves the command queue of either daemon's
on-message handler unchanged. -/
theorem c4_drop_empty_or_wrong_topic (expected topic : String) (payload : List Nat)
    (qS : List (List Nat)) (qP : List (List Char))
    (h : payload = [] ∨ topic ≠ expected) :
    ScaleMqttHandler.onMessage expected topic payload qS = qS
    ∧ PrinterMqttHandler.onMessage expected topic payload qP = qP := by
  rcases h with h | h
  · subst h
    constructor <;>
      simp [ScaleMqttHandler.onMessage, PrinterMqttHandler.onMessage]
  · constructor <;>
      simp [ScaleMqttHandler.onMessage, PrinterMqttHandler.onMessage, h]

/-- Witness for C4: an empty payload on the expected topic is dropped by
both handlers. -/
theorem c4_drop_witness :
    ScaleMqttHandler.onMessage "scale/cmd" "scale/cmd" [] [[84]] = [[84]]
    ∧ PrinterMqttHandler.onMessage "scale/cmd" "scale/cmd" [] [] = [] :=
  c4_drop_empty_or_wrong_topic "scale/cmd" "scale/cmd" [] [[84]] [] (Or.inl rfl)

/-- Claim C5: the byte string 255, 254 on the printer's inbound path decodes
to two replacement characters (no exception in the model: the decode is
total) and the sanitized text is still enqueued. -/
theorem c5_decode_replacement (printTopic : String) (q : List (List Char)) :
    PrinterMqttHandler.onMessage printTopic printTopic [255, 254] q
      = q ++ [[Char.ofNat 0xFFFD, Char.ofNat 0xFFFD]] := by
  simp [PrinterMqttHandler.onMessage, decodeAsciiReplace]

/-- Claim C6: with a failed session setup, a broker worker performs no action
at all — in particular no connect attempt, publish, or subscribe. -/
theorem c6_setup_failure_no_actions (envs : List MqttEnv)
    (stS : ScaleMqttState) (stP : PrinterMqttState) :
    ScaleMqttHandler.run false envs stS = []
    ∧ PrinterMqttHandler.run false envs stP = [] := by
  constructor <;> simp [ScaleMqttHandler.run, PrinterMqttHandler.run]

/-- Claim C8: a non-empty payload on the scale's command topic enqueues
exactly the one-byte string holding the payload's first byte. -/
theorem c8_first_byte (commandTopic : String) (payload : List Nat)
    (q : List (List Nat)) (h : payload ≠ []) :
    ScaleMqttHandler.onMessage commandTopic commandTopic payload q
      = q ++ [[payload.head h]]
    ∧ (payload.take 1).length = 1 := by
  cases payload with
  | nil => exact absurd rfl h
  | cons a as => simp [ScaleMqttHandler.onMessage]

/-- Witness for C8 on a three-byte payload. -/
theorem c8_first_byte_witness :
    ScaleMqttHandler.onMessage "scale/cmd" "scale/cmd" [84, 65, 82] [] = [[84]]
    ∧ (([84, 65, 82] : List Nat).take 1).length = 1 := by
  have h := c8_first_byte "scale/cmd" [84, 65, 82] [] (by decide)
  simpa using h

/-- Claim C10: a non-empty print-topic payload is enqueued as its
replacement-decoded text, and the bytes the printer serial link then
writes are the payload with every byte at or above 128 replaced by 63
(the question mark), ASCII bytes unchanged, followed by exactly one
line-feed byte. -/
theorem c10_printer_pipeline (printTopic : String) (payload : List Nat)
    (q : List (List Char)) (hne : payload ≠ []) (_hbytes : ∀ b ∈ payload, b < 256) :
    PrinterMqttHandler.onMessage printTopic printTopic payload q
      = q ++ [decodeAsciiReplace payload]
    ∧ ∀ env st, st.connected = true → env.writeFails = false →
        st.mqttToSerial = [decodeAsciiReplace payload] →
        (PrinterSerialHandler.runIteration env st).1
          = [SAction.write ((payload.map fun b => if b < 128 then b else 63) ++ [10])] := by
  constructor
  · have hl : payload.length > 0 := List.length_pos.mpr hne
    simp [PrinterMqttHandler.onMessage, hl]
  · intro env st hc hw hq
    simp [PrinterSerialHandler.runIteration, PrinterSerialHandler.tryBody, hc, hw, hq,
      encode_decode_eq_map]

/-- Witness for C10 on the payload 72, 255. -/
theorem c10_printer_pipeline_witness :
    PrinterMqttHandler.onMessage "printer/print" "printer/print" [72, 255] []
      = [[Char.ofNat 72, Char.ofNat 0xFFFD]]
    ∧ (PrinterSerialHandler.runIteration ⟨true, false⟩
        ⟨true, [decodeAsciiReplace [72, 255]]⟩).1
      = [SAction.write [72, 63, 10]] := by
  have h := c10_printer_pipeline "printer/print" [72, 255] [] (by decide) (by decide)
  refine ⟨by simpa using h.1, ?_⟩
  have h2 := h.2 ⟨true, false⟩ ⟨true, [decodeAsciiReplace [72, 255]]⟩ rfl rfl rfl
  rw [h2]
  decide

/-- Claim C1 counterexample: on the scale serial link, with the command queue
holding exactly the one-byte command 84 and the write failing, the
dequeued payload is not put back: after the iteration the queue is
empty, not the singleton the claim requires. -/
theorem c1_no_requeue_counterexample :
    (ScaleSerialHandler.runIteration ⟨true, true, none, false⟩
        ⟨true, [[84]], [], []⟩).2.mqttToSerial = []
    ∧ ((ScaleSerialHandler.runIteration ⟨true, true, none, false⟩
        ⟨true, [[84]], [], []⟩).2.mqttToSerial = [[84]] → False) := by
  decide

/-- Claim C1 amended: a failed write on the printer serial link re-enqueues
the payload at the tail and the link transitions to Disconnected; a
failed publish on the scale broker link re-enqueues the payload at the
tail but the link stays Connected; a failed write on the scale serial
link drops the payload (no re-enqueue), though the link does transition
to Disconnected. -/
theorem c1_requeue_policy
    (envP : PrinterEnv) (stP : PrinterSerialState) (m : List Char)
    (restP : List (List Char))
    (envM : MqttEnv) (stM : ScaleMqttState) (r : List Char)
    (restM : List (List Char))
    (envS : ScaleEnv) (stS : ScaleSerialState) (c : List Nat)
    (restS : List (List Nat))
    (hPc : stP.connected = true) (hPq : stP.mqttToSerial = m :: restP)
    (hPw : envP.writeFails = true)
    (hMc : stM.connected = true) (hMq : stM.serialToMqtt = r :: restM)
    (hMp : envM.pubOk = false)
    (hSc : stS.connected = true) (hSq : stS.mqttToSerial = c :: restS)
    (hSw : envS.writeFails = true) :
    ((PrinterSerialHandler.runIteration envP stP).2.mqttToSerial = restP ++ [m]
      ∧ (PrinterSerialHandler.runIteration envP stP).2.connected = false)
    ∧ ((ScaleMqttHandler.runIteration envM stM).2.serialToMqtt = restM ++ [r]
      ∧ (ScaleMqttHandler.runIteration envM stM).2.connected = true)
    ∧ ((ScaleSerialHandler.runIteration envS stS).2.mqttToSerial = restS
      ∧ (ScaleSerialHandler.runIteration envS stS).2.connected = false) := by
  refine ⟨?_, ?_, ?_⟩
  · constructor <;>
      simp [PrinterSerialHandler.runIteration, PrinterSerialHandler.tryBody,
        hPc, hPq, hPw]
  · constructor <;>
      simp [ScaleMqttHandler.runIteration, ScaleMqttHandler.publishSection,
        hMc, hMq, hMp]
  · constructor <;>
      simp [ScaleSerialHandler.runIteration, ScaleSerialHandler.tryBody,
        hSc, hSq, hSw]

/-- Witness for the amended C1 at concrete failing iterations. -/
theorem c1_requeue_policy_witness :
    ((PrinterSerialHandler.runIteration ⟨true, true⟩
        ⟨true, [['A']]⟩).2.mqttToSerial = [['A']]
      ∧ (PrinterSerialHandler.runIteration ⟨true, true⟩
        ⟨true, [['A']]⟩).2.connected = false)
    ∧ ((ScaleMqttHandler.runIteration ⟨false, 0, false⟩
        ⟨true, [['r']]⟩).2.serialToMqtt = [['r']]
      ∧ (ScaleMqttHandler.runIteration ⟨false, 0, false⟩
        ⟨true, [['r']]⟩).2.connected = true)
    ∧ ((ScaleSerialHandler.runIteration ⟨true, true, none, false⟩
        ⟨true, [[84], [80]], [], []⟩).2.mqttToSerial = [[80]]
      ∧ (ScaleSerialHandler.runIteration ⟨true, true, none, false⟩
        ⟨true, [[84], [80]], [], []⟩).2.connected = false) := by
  have h := c1_requeue_policy ⟨true, true⟩ ⟨true, [['A']]⟩ ['A'] []
      ⟨false, 0, false⟩ ⟨true, [['r']]⟩ ['r'] []
      ⟨true, true, none, false⟩ ⟨true, [[84], [80]], [], []⟩ [84] [[80]]
      rfl rfl rfl rfl rfl rfl rfl rfl rfl
  exact ⟨⟨by simpa using h.1.1, h.1.2⟩, ⟨by simpa using h.2.1.1, h.2.1.2⟩, h.2.2⟩

/-- Claim C3 counterexample: the scale serial link writes a dequeued command
without appending any terminator: the iteration's only write action
carries exactly the bytes 84, and no write of 84 followed by a line
feed occurs. -/
theorem c3_no_terminator_counterexample :
    (ScaleSerialHandler.runIteration ⟨true, false, none, false⟩
        ⟨true, [[84]], [], []⟩).1 = [SAction.write [84], SAction.sleepSmall]
    ∧ (SAction.write [84, 10] ∈ (ScaleSerialHandler.runIteration
        ⟨true, false, none, false⟩ ⟨true, [[84]], [], []⟩).1 → False) := by
  decide

/-- Claim C3 amended: the printer serial link appends a line terminator to
every dequeued payload before writing it; the scale serial link writes
the dequeued command bytes unchanged, with no terminator appended. -/
theorem c3_terminator_policy
    (envP : PrinterEnv) (stP : PrinterSerialState) (m : List Char)
    (restP : List (List Char))
    (envS : ScaleEnv) (stS : ScaleSerialState) (c : List Nat)
    (restS : List (List Nat))
    (hPc : stP.connected = true) (hPq : stP.mqttToSerial = m :: restP)
    (hPw : envP.writeFails = false)
    (hSc : stS.connected = true) (hSq : stS.mqttToSerial = c :: restS)
    (hSw : envS.writeFails = false) :
    SAction.write (encodeAsciiReplace m ++ [10])
      ∈ (PrinterSerialHandler.runIteration envP stP).1
    ∧ SAction.write c ∈ (ScaleSerialHandler.runIteration envS stS).1 := by
  constructor
  · simp [PrinterSerialHandler.runIteration, PrinterSerialHandler.tryBody,
      hPc, hPq, hPw]
  · have hmem : SAction.write c ∈ ([SAction.write c] : List SAction) :=
      List.mem_singleton.mpr rfl
    simp only [ScaleSerialHandler.runIteration, ScaleSerialHandler.tryBody,
      hSc, hSq, hSw, if_true, Bool.false_eq_true, if_false, ite_true]
    exact readSection_mem_of_mem envS _ _ _ hmem

/-- Witness for the amended C3 at concrete successful writes. -/
theorem c3_terminator_policy_witness :
    SAction.write (encodeAsciiReplace ['H', 'i'] ++ [10])
      ∈ (PrinterSerialHandler.runIteration ⟨true, false⟩
          ⟨true, [['H', 'i']]⟩).1
    ∧ SAction.write [84] ∈ (ScaleSerialHandler.runIteration
        ⟨true, false, none, false⟩ ⟨true, [[84]], [], []⟩).1 :=
  c3_terminator_policy ⟨true, false⟩ ⟨true, [['H', 'i']]⟩ ['H', 'i'] []
    ⟨true, false, none, false⟩ ⟨true, [[84]], [], []⟩ [84] []
    rfl rfl rfl rfl rfl rfl

/-- Claim C9: the scale line buffer survives a transport failure, disconnect
and reconnect unchanged, and the bytes accumulated before the failure
are the head of the first line completed after reconnection; the buffer
is cleared exactly when a line feed completes the line. -/
theorem c9_buffer_survives_reconnect (bs1 bs2 : List Nat) (q0 : List (List Char))
    (h1 : ∀ b ∈ bs1, b ≠ 10) (h2 : ∀ b ∈ bs2, b ≠ 10) :
    (∀ st : ScaleReadState,
        (ScaleSerialHandler.readStep st ScaleReadEvent.fail).buffer = st.buffer
        ∧ (ScaleSerialHandler.readStep st ScaleReadEvent.reconnect).buffer
            = st.buffer)
    ∧ ScaleSerialHandler.readRun ⟨true, [], q0⟩
        (bs1.map ScaleReadEvent.byte
          ++ [ScaleReadEvent.fail, ScaleReadEvent.reconnect]
          ++ bs2.map ScaleReadEvent.byte ++ [ScaleReadEvent.byte 10])
      = ⟨true, [],
          if pyStrip (decodeAsciiReplace (bs1 ++ bs2)) = [] then q0
          else q0 ++ [pyStrip (decodeAsciiReplace (bs1 ++ bs2))]⟩ := by
  constructor
  · intro st
    constructor <;> simp [ScaleSerialHandler.readStep]
  · rw [readRun_append, readRun_append, readRun_append]
    rw [readRun_bytes_accumulate bs1 _ h1]
    have hmid : ScaleSerialHandler.readRun
        ({ connected := true, buffer := [] ++ bs1, outQ := q0 } : ScaleReadState)
        [ScaleReadEvent.fail, ScaleReadEvent.reconnect]
        = ⟨true, bs1, q0⟩ := by
      simp [ScaleSerialHandler.readRun, ScaleSerialHandler.readStep]
    rw [hmid, readRun_bytes_accumulate bs2 _ h2]
    by_cases hb : bs1 ++ bs2 = []
    · rcases List.append_eq_nil.mp hb with ⟨hb1, hb2⟩
      subst hb1; subst hb2
      simp [ScaleSerialHandler.readRun, ScaleSerialHandler.readStep,
        ScaleSerialHandler.processByte, pyStrip, decodeAsciiReplace]
    · simp only [ScaleSerialHandler.readRun, List.foldl_cons, List.foldl_nil,
        ScaleSerialHandler.readStep, ScaleSerialHandler.processByte]
      simp [hb]

/-- Witness for C9: two bytes, a failure and reconnect, one more byte,
then the line feed, producing the single line 123. -/
theorem c9_buffer_survives_reconnect_witness :
    ScaleSerialHandler.readRun ⟨true, [], []⟩
      ([49, 50].map ScaleReadEvent.byte
        ++ [ScaleReadEvent.fail, ScaleReadEvent.reconnect]
        ++ [51].map ScaleReadEvent.byte ++ [ScaleReadEvent.byte 10])
      = ⟨true, [], [['1', '2', '3']]⟩ := by
  have h := (c9_buffer_survives_reconnect [49, 50] [51] []
      (by decide) (by decide)).2
  rw [h]
  decide

/-- Claim C7: with the stop signal observed false at boundary `n` (after `n`
running iterations), the scale serial run loop ignores any extra fuel —
it never loops again after observing the signal — its trace ends with
the final disconnect of line 140, and every single iteration sleeps the
reconnect delay at most once, so exit latency after `stop()` is bounded
by the current iteration plus one backoff-delay interval. -/
theorem c7_stop_bounded (running : Nat → Bool) (envs : Nat → ScaleEnv)
    (st : ScaleSerialState) (n : Nat)
    (hrun : ∀ j, j < n → running j = true) (hstop : running n = false) :
    (∀ fuel, n + 1 ≤ fuel →
        ScaleSerialHandler.runFrom running envs fuel 0 st
          = ScaleSerialHandler.runFrom running envs (n + 1) 0 st)
    ∧ (ScaleSerialHandler.runFrom running envs (n + 1) 0 st).getLast?
        = some SAction.disconnect
    ∧ ∀ env s, ((ScaleSerialHandler.runIteration env s).1.count
        SAction.sleepReconnect) ≤ 1 := by
  have hrun0 : ∀ j, j < n → running (0 + j) = true := by simpa using hrun
  have hstop0 : running (0 + n) = false := by simpa using hstop
  refine ⟨?_, (runFrom_stop_aux running envs n 0 st 0 hrun0 hstop0).2,
    fun env s => runIteration_count_sleepReconnect env s⟩
  intro fuel hf
  obtain ⟨k, hk⟩ : ∃ k, fuel = n + 1 + k := ⟨fuel - (n + 1), by omega⟩
  subst hk
  exact (runFrom_stop_aux running envs n 0 st k hrun0 hstop0).1

/-- Witness for C7: a loop stopped at boundary 1 after one failed
connect attempt. -/
theorem c7_stop_bounded_witness :
    (ScaleSerialHandler.runFrom (fun i => decide (i < 1))
        (fun _ => ⟨false, false, none, false⟩) 3 0 ⟨false, [], [], []⟩
      = ScaleSerialHandler.runFrom (fun i => decide (i < 1))
        (fun _ => ⟨false, false, none, false⟩) 2 0 ⟨false, [], [], []⟩)
    ∧ (ScaleSerialHandler.runFrom (fun i => decide (i < 1))
        (fun _ => ⟨false, false, none, false⟩) 2 0 ⟨false, [], [], []⟩).getLast?
      = some SAction.disconnect := by
  have h := c7_stop_bounded (fun i => decide (i < 1))
      (fun _ => ⟨false, false, none, false⟩) ⟨false, [], [], []⟩ 1
      (fun j hj => by simpa using hj) (by decide)
  exact ⟨h.1 3 (by omega), h.2.1⟩

end ScalePrinterMqtt
